import Mathlib

/-!
Verification development for the Snowflake SQL-API connector service.

The definitions below are a shallow embedding of the repository's core code:

* `src/app/services/snowflake.py` — `SnowflakeService`: SQL validation
  (`_validate_sql`), execution with polling, pagination and cancellation
  (`execute_sql`, `_poll_for_result`, `_fetch_all_pages`, `_cancel_query`,
  `_process_result`), and the bind-parameter encoder (`_format_bindings`,
  `_determine_binding`).
* `src/app/auth/keypair_auth1.py` — `SnowflakeKeyPair.create_jwt_token`.

Modelling conventions:

* The remote HTTP API is an abstract environment `Env` mapping each request
  (identified by its position in the request sequence and its content) to a
  response or transport failure; the executor threads an explicit state
  carrying the timestamped request trace and a monotonic clock.
* Time (`time.monotonic()` readings, `timeout`, `poll_interval`, request
  durations, `asyncio.sleep`) is modelled in integer ticks (`Int`); the
  Python code uses float seconds, but no claim depends on fractional time.
* Python exceptions are modelled by `Except` with a `PyExn` value recording
  the exception class distinctions the code branches on
  (`httpx.HTTPStatusError` versus everything else) and the message string.
* Loops (`while True` polling, pagination) take a fuel argument; running out
  of fuel yields `none`, a marker with no Python counterpart.
* Python `int(x)` / `float(x)` string parsing is modelled for the usual
  sign/digits/point/exponent forms (no underscores, no inf/nan); `str` of a
  float is modelled as the exact decimal rendering with trailing zeros
  stripped and a forced `.0` for integral values, matching CPython on the
  short decimal literals relevant here. `str.upper`/`lower` are the ASCII
  case maps.
-/

/-- A result row as delivered by the API: a list of nullable cell strings. -/
abbrev SfRow := List (Option String)

/-- One entry of `resultSetMetaData.rowType`; only `name` is read by the code
(`_process_result` line 263). -/
structure ColInfo where
  name : String
deriving DecidableEq, Repr

/-- The `resultSetMetaData` object; fields the code reads, each possibly
absent (`dict.get` with defaults). -/
structure ResultMeta where
  rowType : Option (List ColInfo) := none
  numRows : Option Nat := none
deriving DecidableEq, Repr

/-- The JSON `status` field of a statement response: absent, a plain string,
or an object whose own `status` member may be absent (the code handles both
shapes at `_poll_for_result` lines 207-209). -/
inductive StatusField where
  | absent
  | strVal (s : String)
  | objVal (inner : Option String)
deriving DecidableEq, Repr

/-- Normalisation performed at `_poll_for_result` lines 207-209:
`status = result.get("status")`, then if it is a dict take its `"status"`
member. -/
def pyStatusOf : StatusField → Option String
  | .absent => none
  | .strVal s => some s
  | .objVal i => i

/-- A parsed Snowflake statement-API JSON body, restricted to the fields the
service reads, plus the raw body text (`response.text`) used in error
messages. -/
structure SfResponse where
  code : Option String := none
  message : Option String := none
  statementHandle : Option String := none
  data : List SfRow := []
  resultSetMetaData : Option ResultMeta := none
  nextPageToken : Option String := none
  status : StatusField := .absent
  text : String := ""
deriving DecidableEq, Repr

/-- Python truthiness of an optional string (`while handle and next_token`):
`None` and the empty string are falsy. -/
def optTruthy : Option String → Bool
  | none => false
  | some s => s ≠ ""

/-- Python `str(x)` applied to an optional string, as in
`f"Query failed: {result.get('message')}"`: `None` renders as `"None"`. -/
def pyShowOpt : Option String → String
  | none => "None"
  | some s => s

/-- Python values a caller can put in the `parameters` dict. A float is kept
as its shortest-repr decimal: signed mantissa and decimal scale, so the value
is `mantissa / 10 ^ scale`. -/
structure PyFloat where
  mantissa : Int
  scale : Nat
deriving DecidableEq, Repr

/-- The caller-supplied parameter values `_determine_binding` inspects. -/
inductive PyValue where
  | bool (b : Bool)
  | int (n : Int)
  | float (f : PyFloat)
  | str (s : String)
  | pynone
deriving DecidableEq, Repr

/-- A Python object in a slot typed `Any`: either still a raw value or a
string produced by `str(...)`. `_determine_binding` initialises
`binding_value: Any = value` and is expected to overwrite it with a string
on every path. -/
inductive PyAny where
  | raw (v : PyValue)
  | pys (s : String)
deriving DecidableEq, Repr

/-- Whitespace characters stripped by Python `int()`/`float()` parsing. -/
def isPySpace (c : Char) : Bool :=
  c = ' ' || c = '\t' || c = '\n' || c = '\x0d' || c = '\x0b' || c = '\x0c'

/-- Characters of a string with surrounding whitespace stripped (the effect
of Python's implicit strip in numeric conversion). -/
def pyStrip (s : String) : List Char :=
  ((s.data.dropWhile isPySpace).reverse.dropWhile isPySpace).reverse

/-- ASCII lower-casing, the effect of `str.lower()` on the strings arising
here. -/
def lowerAscii (s : String) : String :=
  String.mk (s.data.map Char.toLower)

/-- Longest digit prefix of a character list, with the remainder. -/
def takeDigits : List Char → List Char × List Char
  | [] => ([], [])
  | c :: cs =>
    if c.isDigit then
      let p := takeDigits cs
      (c :: p.1, p.2)
    else ([], c :: cs)

/-- Numeric value of a digit list (most significant first). -/
def digitsToNat (cs : List Char) : Nat :=
  cs.foldl (fun n c => n * 10 + (c.toNat - 48)) 0

/-- Python `int(s)` on a sign-stripped body: all characters must be digits
and there must be at least one. -/
def pyIntDigits (sign : Int) (cs : List Char) : Option Int :=
  if cs ≠ [] ∧ cs.all Char.isDigit then some (sign * (digitsToNat cs : Int)) else none

/-- Python `int(s)` for a string: surrounding whitespace stripped, optional
sign, decimal digits. -/
def pyIntParse (s : String) : Option Int :=
  match pyStrip s with
  | '+' :: cs => pyIntDigits 1 cs
  | '-' :: cs => pyIntDigits (-1) cs
  | cs => pyIntDigits 1 cs

/-- Exponent part of a float literal (text after `e`/`E`). -/
def pyExpParse (cs : List Char) : Option Int :=
  match cs with
  | '+' :: ds => (pyIntDigits 1 ds)
  | '-' :: ds => (pyIntDigits (-1) ds)
  | ds => (pyIntDigits 1 ds)

/-- Build a `PyFloat` from a signed mantissa and a signed decimal scale,
moving a nonpositive scale into the mantissa. -/
def mkPyFloat (mant : Int) (scale : Int) : PyFloat :=
  if scale ≤ 0 then ⟨mant * 10 ^ (-scale).toNat, 0⟩ else ⟨mant, scale.toNat⟩

/-- Python `float(s)` on a sign-stripped body: `digits[.digits][e±digits]`,
with at least one digit in the mantissa. -/
def pyFloatBody (sign : Int) (cs : List Char) : Option PyFloat :=
  let ipr := takeDigits cs
  let fpr :=
    match ipr.2 with
    | '.' :: rest => takeDigits rest
    | _ => ([], ipr.2)
  if ipr.1.isEmpty ∧ fpr.1.isEmpty then none
  else
    let mant : Int := sign * (digitsToNat (ipr.1 ++ fpr.1) : Int)
    let sc : Int := (fpr.1.length : Int)
    match fpr.2 with
    | [] => some (mkPyFloat mant sc)
    | 'e' :: rest => (pyExpParse rest).map (fun e => mkPyFloat mant (sc - e))
    | 'E' :: rest => (pyExpParse rest).map (fun e => mkPyFloat mant (sc - e))
    | _ => none

/-- Python `float(s)` for a string: strip whitespace, optional sign, then the
mantissa/exponent body (`inf`/`nan` forms are outside the model). -/
def pyFloatParse (s : String) : Option PyFloat :=
  match pyStrip s with
  | '+' :: cs => pyFloatBody 1 cs
  | '-' :: cs => pyFloatBody (-1) cs
  | cs => pyFloatBody 1 cs

/-- Strip factors of ten from the fractional part so the rendering is the
shortest decimal, as CPython `str(float)` produces. -/
def pyFloatReduce : Int → Nat → Int × Nat
  | m, 0 => (m, 0)
  | m, s + 1 => if m % 10 = 0 then pyFloatReduce (m / 10) s else (m, s + 1)

/-- Python `str(f)` for a (finite, plain-form) float: trailing fractional
zeros stripped, integral values rendered with a trailing `.0`. -/
def pyFloatStr (f : PyFloat) : String :=
  let r := pyFloatReduce f.mantissa f.scale
  let sign := if r.1 < 0 then "-" else ""
  if r.2 = 0 then sign ++ toString r.1.natAbs ++ ".0"
  else
    let ds := (toString r.1.natAbs).data
    let padded := List.replicate (r.2 + 1 - ds.length) '0' ++ ds
    sign ++ String.mk (padded.take (padded.length - r.2)) ++ "." ++
      String.mk (padded.drop (padded.length - r.2))

/-- Python `str(value)` on the modelled value universe. -/
def pyStr : PyValue → String
  | .bool b => if b then "True" else "False"
  | .int n => toString n
  | .float f => pyFloatStr f
  | .str s => s
  | .pynone => "None"

/-- Python `int(value)`: identity on ints, truncation toward zero on floats,
string parsing, `TypeError` (`none`) on `None`; the `bool` case is
unreachable in `_determine_binding` because of the preceding
`isinstance(value, bool)` test. -/
def pyInt : PyValue → Option Int
  | .bool b => some (if b then 1 else 0)
  | .int n => some n
  | .float f => some (Int.tdiv f.mantissa (10 ^ f.scale))
  | .str s => pyIntParse s
  | .pynone => none

/-- Python `float(value)`: ints widen, floats pass through, strings parse,
`None` raises (`none`). -/
def pyFloatOf : PyValue → Option PyFloat
  | .bool b => some ⟨if b then 1 else 0, 0⟩
  | .int n => some ⟨n, 0⟩
  | .float f => some f
  | .str s => pyFloatParse s
  | .pynone => none

/-- One wire binding `{"type": ..., "value": ...}` as built by
`_determine_binding`. -/
structure SfBinding where
  type : String
  value : PyAny
deriving DecidableEq, Repr

/-- Model of `SnowflakeService._determine_binding` (snowflake.py lines 160-185):
booleans first; then `int(value)` with the `str(int_val) == str(value)`
round-trip check for FIXED; a failed round-trip raises and falls through,
with the raised `ValueError`/`TypeError` caught by the `float(value)`
attempt for REAL; anything else is TEXT via `str(value)`. -/
def determineBinding (value : PyValue) : SfBinding :=
  match value with
  | .bool b => { type := "BOOLEAN", value := .pys (lowerAscii (pyStr (.bool b))) }
  | v =>
    match pyInt v with
    | some intVal =>
      if toString intVal = pyStr v then
        { type := "FIXED", value := .pys (toString intVal) }
      else
        match pyFloatOf v with
        | some floatVal => { type := "REAL", value := .pys (pyFloatStr floatVal) }
        | none => { type := "TEXT", value := .pys (pyStr v) }
    | none =>
      match pyFloatOf v with
      | some floatVal => { type := "REAL", value := .pys (pyFloatStr floatVal) }
      | none => { type := "TEXT", value := .pys (pyStr v) }

/-- Model of `SnowflakeService._format_bindings` (lines 153-158): enumerate the
parameter dict's values from 1 and key each binding by the stringified
position. The insertion-ordered dict is modelled as an association list. -/
def formatBindings (parameters : List (String × PyValue)) : List (String × SfBinding) :=
  ((parameters.map Prod.snd).enum).map
    (fun p => (toString (p.1 + 1), determineBinding p.2))

/-- The `bindings` member of a statement request body: present only when
`if parameters:` holds, i.e. the dict is nonempty. -/
def requestBindings (parameters : List (String × PyValue)) : Option (List (String × SfBinding)) :=
  if parameters = [] then none else some (formatBindings parameters)

/-- The JWT payload assembled by `SnowflakeKeyPair.create_jwt_token`
(keypair_auth1.py lines 95-117); the RS256 signing step is outside the
model, the claims concern the payload fields. -/
structure JwtPayload where
  iss : String
  sub : String
  iat : Int
  exp : Int
  aud : String
deriving DecidableEq, Repr

/-- Model of `SnowflakeKeyPair.create_jwt_token` payload construction (lines 100-112):
`iss = {ACCOUNT.upper()}.{USER.upper()}.SHA256:{fp}`, `sub` the qualified
username, `exp = iat + 3600`, `aud = {account}.snowflakecomputing.com`. -/
def createJwtPayload (account username publicKeyFp : String) (now : Int) : JwtPayload :=
  let qualifiedUsername := account.toUpper ++ "." ++ username.toUpper
  let issuer := qualifiedUsername ++ ".SHA256:" ++ publicKeyFp
  { iss := issuer
    sub := qualifiedUsername
    iat := now
    exp := now + 3600
    aud := account ++ ".snowflakecomputing.com" }

/-- A request the service can issue, identified by endpoint and payload:
`POST /api/v2/statements` (used both for the EXPLAIN validation probe and
the real statement, distinguished only by statement text and bindings),
`GET /api/v2/statements/{handle}` (status poll),
`GET /api/v2/statements/{handle}?page={token}` (page fetch), and
`POST /api/v2/statements/{handle}/cancel`. -/
inductive SfRequest where
  | postStatement (stmt : String) (bindings : Option (List (String × SfBinding)))
  | getStatus (handle : String)
  | getPage (handle : String) (token : String)
  | postCancel (handle : String)
deriving DecidableEq, Repr

/-- What the transport returns for one request: an HTTP status plus parsed
body, or a transport-level failure (connect error etc., surfacing as a
generic exception). -/
inductive HttpResult where
  | resp (status : Nat) (body : SfResponse)
  | transportError (msg : String)
deriving DecidableEq, Repr

/-- The remote system: the response and the wall-clock duration of the i-th
request issued in an execution (`i` = number of requests already made). -/
structure Env where
  respond : Nat → SfRequest → HttpResult
  duration : Nat → SfRequest → Int

/-- Execution state: the timestamped request trace (each entry is the request
and the clock reading at which it was issued) and the monotonic clock. -/
structure ExecState where
  trace : List (SfRequest × Int)
  clock : Int
deriving DecidableEq, Repr

/-- State at the start of an `execute_sql` call. -/
def initState : ExecState := { trace := [], clock := 0 }

/-- Issue one request: record it at the current clock, advance the clock by
its duration, and return the transport's answer. -/
def doRequest (env : Env) (s : ExecState) (req : SfRequest) : HttpResult × ExecState :=
  (env.respond s.trace.length req,
   { trace := s.trace ++ [(req, s.clock)]
     clock := s.clock + env.duration s.trace.length req })

/-- The exception classes the code distinguishes: `httpx.HTTPStatusError`
(handled by its own `except` arm), `TimeoutError`, and any other
`Exception`, each carrying what `str(e)` yields. -/
inductive PyExn where
  | httpStatusError (status : Nat) (bodyText : String)
  | timeoutError (msg : String)
  | generic (msg : String)
deriving DecidableEq, Repr

/-- Python `str(e)` for the modelled exceptions (`HTTPStatusError` never
reaches a formatting site in this code, so its rendering is fixed but
unused). -/
def pyExnStr : PyExn → String
  | .httpStatusError status bodyText => toString status ++ " - " ++ bodyText
  | .timeoutError msg => msg
  | .generic msg => msg

/-- Model of `SnowflakeService._validate_sql` (lines 42-83): POST the statement
wrapped in `EXPLAIN`, `raise_for_status`, then require JSON `code`
`"090001"`. An `HTTPStatusError` is reported as
`Snowflake API error during validation: ...`; any other failure is wrapped
as `SQL validation error: ...`. -/
def validateSql (env : Env) (sql : String) (parameters : List (String × PyValue))
    (s : ExecState) : Except PyExn Unit × ExecState :=
  let out := doRequest env s (.postStatement ("EXPLAIN " ++ sql) (requestBindings parameters))
  match out.1 with
  | .transportError m => (.error (.generic ("SQL validation error: " ++ m)), out.2)
  | .resp status body =>
    if 400 ≤ status then
      (.error (.generic ("Snowflake API error during validation: " ++ toString status
        ++ " - " ++ body.text)), out.2)
    else if body.code = some "090001" then (.ok (), out.2)
    else
      (.error (.generic ("SQL validation error: "
        ++ (body.message.getD "SQL validation failed"))), out.2)

/-- Model of `SnowflakeService._cancel_query` (lines 241-247): POST the cancel
endpoint; the response is never inspected (`raise_for_status` is not called)
and any exception is logged, not raised, so only the trace/clock effect of
the request remains. -/
def cancelQuery (env : Env) (handle : String) (s : ExecState) : ExecState :=
  (doRequest env s (.postCancel handle)).2

/-- One poll loop of `SnowflakeService._poll_for_result` (lines 198-216),
with `startTime` the `time.monotonic()` reading captured at entry: first the
deadline check (cancel and raise `TimeoutError` when exceeded), then the
status GET with `raise_for_status`, then the terminal-status tests, then
`asyncio.sleep(poll_interval)` and repeat. -/
def pollLoop (env : Env) (handle : String) (pollInterval timeout startTime : Int) :
    Nat → ExecState → Option (Except PyExn SfResponse × ExecState)
  | fuel, s =>
    if timeout < s.clock - startTime then
      some (.error (.timeoutError "Snowflake query timed out and was cancelled"),
        cancelQuery env handle s)
    else
      match fuel with
      | 0 => none
      | fuel + 1 =>
        let out := doRequest env s (.getStatus handle)
        match out.1 with
        | .transportError m => some (.error (.generic m), out.2)
        | .resp status body =>
          if 400 ≤ status then some (.error (.httpStatusError status body.text), out.2)
          else
            let st := pyStatusOf body.status
            if st = some "SUCCESS" ∨ st = some "SUCCEEDED" then some (.ok body, out.2)
            else if st = some "FAILED" ∨ st = some "ABORTED" ∨ st = some "FAILED_WITH_ERROR" then
              some (.error (.generic ("Query failed: " ++ pyShowOpt body.message)), out.2)
            else
              pollLoop env handle pollInterval timeout startTime fuel
                { out.2 with clock := out.2.clock + pollInterval }

/-- Model of `SnowflakeService._poll_for_result` (lines 187-216): capture
`start_time = time.monotonic()` and run the poll loop. -/
def pollForResult (env : Env) (handle : String) (pollInterval timeout : Int)
    (fuel : Nat) (s : ExecState) : Option (Except PyExn SfResponse × ExecState) :=
  pollLoop env handle pollInterval timeout s.clock fuel s

/-- The `while handle and next_token` pagination loop of
`SnowflakeService._fetch_all_pages` (lines 229-235), accumulating rows. -/
def fetchLoop (env : Env) (handle : Option String) :
    Nat → List SfRow → Option String → ExecState →
    Option (Except PyExn (List SfRow) × ExecState)
  | fuel, rows, tok, s =>
    if optTruthy handle && optTruthy tok then
      match fuel with
      | 0 => none
      | fuel + 1 =>
        let out := doRequest env s (.getPage (handle.getD "") (tok.getD ""))
        match out.1 with
        | .transportError m => some (.error (.generic m), out.2)
        | .resp status page =>
          if 400 ≤ status then some (.error (.httpStatusError status page.text), out.2)
          else fetchLoop env handle fuel (rows ++ page.data) page.nextPageToken out.2
    else some (.ok rows, s)

/-- Model of `SnowflakeService._fetch_all_pages` (lines 218-239): start from the
response's own rows and token, loop, and write the accumulated rows back;
the metadata keeps the first response's value (`meta` is captured before the
loop and reassigned unchanged). -/
def fetchAllPages (env : Env) (result : SfResponse) (handle : Option String)
    (fuel : Nat) (s : ExecState) : Option (Except PyExn SfResponse × ExecState) :=
  match fetchLoop env handle fuel result.data result.nextPageToken s with
  | none => none
  | some (.error e, s1) => some (.error e, s1)
  | some (.ok rows, s1) => some (.ok { result with data := rows }, s1)

/-- The normalised result dict built by `SnowflakeService._process_result`
(lines 260-266). -/
structure QueryOutcome where
  success : Bool
  data : List SfRow
  columns : List String
  row_count : Nat
  query_id : Option String
deriving DecidableEq, Repr

/-- Model of `SnowflakeService._process_result` (lines 249-266): require `code`
`"090001"`, else raise `Query failed: ...`; on success project rows, column
names from `resultSetMetaData.rowType`, `numRows` and the handle. -/
def processResult (result : SfResponse) : Except PyExn QueryOutcome :=
  if result.code ≠ some "090001" then
    .error (.generic ("Query failed: " ++ pyShowOpt result.message))
  else
    .ok { success := true
          data := result.data
          columns := ((result.resultSetMetaData.getD {}).rowType.getD []).map ColInfo.name
          row_count := (result.resultSetMetaData.getD {}).numRows.getD 0
          query_id := result.statementHandle }

/-- The `except` clauses of `execute_sql` (lines 145-151): an
`HTTPStatusError` becomes `Snowflake API error: {status} - {text}`; every
other exception raised in the `try` block (including the `TimeoutError`
from polling) becomes `Query execution error: {e}`. -/
def execExceptArm : PyExn → PyExn
  | .httpStatusError status bodyText =>
    .generic ("Snowflake API error: " ++ toString status ++ " - " ++ bodyText)
  | e => .generic ("Query execution error: " ++ pyExnStr e)

/-- Body of the `try:` block of `SnowflakeService.execute_sql`
(lines 126-151), entered after validation succeeded: POST the real
statement, enter the poll loop when the response is HTTP 202 or carries
code `"333333"` (the handle rendered through the f-string, so a missing
handle polls the literal `"None"`), paginate, and normalise; failures
raised inside pass through `execExceptArm`. -/
def executeSqlTry (env : Env) (sql : String) (parameters : List (String × PyValue))
    (pollInterval timeout : Int) (fuel : Nat) (s1 : ExecState) :
    Option (Except PyExn QueryOutcome × ExecState) :=
    let out := doRequest env s1 (.postStatement sql (requestBindings parameters))
    match out.1 with
    | .transportError m => some (.error (execExceptArm (.generic m)), out.2)
    | .resp status result =>
      if 400 ≤ status then
        some (.error (execExceptArm (.httpStatusError status result.text)), out.2)
      else
        let handle := result.statementHandle
        let afterPoll :=
          if status = 202 ∨ result.code = some "333333" then
            pollForResult env (pyShowOpt handle) pollInterval timeout fuel out.2
          else some (.ok result, out.2)
        match afterPoll with
        | none => none
        | some (.error e, s2) => some (.error (execExceptArm e), s2)
        | some (.ok result2, s2) =>
          match fetchAllPages env result2 handle fuel s2 with
          | none => none
          | some (.error e, s3) => some (.error (execExceptArm e), s3)
          | some (.ok result3, s3) =>
            match processResult result3 with
            | .error e => some (.error (execExceptArm e), s3)
            | .ok outcome => some (.ok outcome, s3)

/-- Model of `SnowflakeService.execute_sql` (lines 85-151): validate first
(outside the `try`, so validation errors propagate unwrapped), then run the
`try:` block body. -/
def executeSql (env : Env) (sql : String) (parameters : List (String × PyValue))
    (pollInterval timeout : Int) (fuel : Nat) (s : ExecState) :
    Option (Except PyExn QueryOutcome × ExecState) :=
  match validateSql env sql parameters s with
  | (.error e, s1) => some (.error e, s1)
  | (.ok _, s1) => executeSqlTry env sql parameters pollInterval timeout fuel s1

/-- A poll response status that is neither a success nor a failure terminal
state, so the loop at `_poll_for_result` lines 211-214 keeps going. -/
def nonTerminalStatus (r : SfResponse) : Prop :=
  pyStatusOf r.status ∉ ([some "SUCCESS", some "SUCCEEDED", some "FAILED",
    some "ABORTED", some "FAILED_WITH_ERROR"] : List (Option String))

/-- Message produced when a remote failure status or failure code is wrapped
by the `execute_sql` handler. -/
def remoteMark : String := "Query execution error: Query failed: "

/-- The full caller-visible message of a client-side timeout. -/
def timeoutMsgFull : String :=
  "Query execution error: Snowflake query timed out and was cancelled"

/-- Message head of a pre-execution validation failure. -/
def validationMark : String := "SQL validation error: "

/-- Message head of an HTTP-level (transport) failure during execution. -/
def apiMark : String := "Snowflake API error: "

/-- A caller-side classifier witnessing that the four execution-layer
failure kinds stay distinguishable from the message text alone. -/
def errorKind (msg : String) : String :=
  if msg.data.take remoteMark.data.length = remoteMark.data then "RemoteQueryFailed"
  else if msg = timeoutMsgFull then "TimedOut"
  else if msg.data.take validationMark.data.length = validationMark.data then "ValidationFailed"
  else if msg.data.take apiMark.data.length = apiMark.data then "TransportError"
  else "Unknown"

/-- A successful EXPLAIN (validation) response body. -/
def okExplainResp : SfResponse := { code := some "090001" }

/-- A still-running poll response body. -/
def runningResp : SfResponse := { status := .objVal (some "RUNNING") }

/-- Environment builder for concrete runs of `executeSql "SELECT 1" []`:
the EXPLAIN probe succeeds, the behaviour of the other endpoints is
supplied; all requests take zero time. -/
def mkEnv (execResp statusResp : HttpResult) (pageResp : String → HttpResult)
    (cancelResp : HttpResult) : Env :=
  { respond := fun _ req =>
      match req with
      | .postStatement st _ =>
        if st = "EXPLAIN SELECT 1" then .resp 200 okExplainResp else execResp
      | .getStatus _ => statusResp
      | .getPage _ t => pageResp t
      | .postCancel _ => cancelResp
    duration := fun _ _ => 0 }

/-- Environment whose statement endpoint reports a non-success code to
every POST, so validation fails. -/
def envC1W : Env :=
  { respond := fun _ _ => .resp 200 { code := some "000123", message := some "bad sql" }
    duration := fun _ _ => 0 }

/-- Environment where the statement runs asynchronously, never terminates,
and the cancel endpoint itself fails at the transport level. -/
def envC2W : Env :=
  mkEnv (.resp 202 { code := some "333333", statementHandle := some "h7" })
    (.resp 200 runningResp) (fun _ => .resp 200 {}) (.transportError "connection refused")

/-- First (synchronous) page of a three-page result. -/
def pageFirstResp : SfResponse :=
  { code := some "090001", statementHandle := some "h", data := [[some "r1"]],
    nextPageToken := some "t1",
    resultSetMetaData := some { rowType := some [⟨"C"⟩], numRows := some 3 } }

/-- Second page, carrying the token of the third. -/
def pageSecondResp : SfResponse := { data := [[some "r2"]], nextPageToken := some "t2" }

/-- Third page, with no continuation token. -/
def pageThirdResp : SfResponse := { data := [[some "r3"]] }

/-- Environment serving the three-page result. -/
def envC3W : Env :=
  mkEnv (.resp 200 pageFirstResp) (.resp 200 {})
    (fun t => if t = "t1" then .resp 200 pageSecondResp else .resp 200 pageThirdResp)
    (.resp 200 {})

/-- Token chain of the three-page result, as a function of the fetch index. -/
def tokC3W : Nat → String := fun i => if i = 0 then "t1" else "t2"

/-- Fetched pages of the three-page result, as a function of the fetch index. -/
def pagesC3W : Nat → SfResponse := fun i => if i = 0 then pageSecondResp else pageThirdResp

/-- A single-page synchronous success response. -/
def syncOkResp : SfResponse :=
  { code := some "090001", statementHandle := some "q1", data := [[some "1"]],
    resultSetMetaData := some { rowType := some [⟨"A"⟩], numRows := some 1 } }

/-- Environment completing the statement synchronously. -/
def envC6W : Env :=
  mkEnv (.resp 200 syncOkResp) (.resp 200 {}) (fun _ => .resp 200 {}) (.resp 200 {})

/-- Environment where the submission POST of the real statement takes 100
ticks before returning a still-running answer, and polling never
terminates: used to exhibit where the deadline clock starts. -/
def envC7cex : Env :=
  { respond := fun _ req =>
      match req with
      | .postStatement st _ =>
        if st = "EXPLAIN SELECT 1" then .resp 200 okExplainResp
        else .resp 202 { statementHandle := some "h7" }
      | .getStatus _ => .resp 200 runningResp
      | _ => .resp 200 {}
    duration := fun _ req =>
      match req with
      | .postStatement st _ => if st = "EXPLAIN SELECT 1" then 0 else 100
      | _ => 0 }

/-- Environment answering every request with a still-running body in zero
time; used for a direct run of the poll loop. -/
def envC7W : Env :=
  { respond := fun _ _ => .resp 200 runningResp
    duration := fun _ _ => 0 }

/-- Environment whose EXPLAIN probe is rejected with a message. -/
def envC8V : Env :=
  { respond := fun _ _ => .resp 200 { code := some "000321", message := some "explain rejected" }
    duration := fun _ _ => 0 }

/-- Environment whose statement completes synchronously with a failure code. -/
def envC8R : Env :=
  mkEnv (.resp 200 { code := some "002043", message := some "compilation error" })
    (.resp 200 {}) (fun _ => .resp 200 {}) (.resp 200 {})

/-- Environment whose statement runs asynchronously and never terminates. -/
def envC8T : Env :=
  mkEnv (.resp 202 { code := some "333333", statementHandle := some "h9" })
    (.resp 200 runningResp) (fun _ => .resp 200 {}) (.resp 200 {})

/-- Environment whose execution POST is answered with HTTP 503. -/
def envC8X : Env :=
  mkEnv (.resp 503 { text := "service unavailable" }) (.resp 200 {})
    (fun _ => .resp 200 {}) (.resp 200 {})


/-- Concatenation of the `data` rows of `k` consecutive pages starting at
index `j`, in order. -/
def pagesJoin (pages : Nat → SfResponse) : Nat → Nat → List SfRow
  | _, 0 => []
  | j, k + 1 => (pages j).data ++ pagesJoin pages (j + 1) k

/-- The page GET requests for `k` consecutive tokens starting at index `j`,
in order. -/
def pageReqs (h : String) (tok : Nat → String) : Nat → Nat → List SfRequest
  | _, 0 => []
  | j, k + 1 => SfRequest.getPage h (tok j) :: pageReqs h tok (j + 1) k

/-- Environment returning a continuation token but no statement handle. -/
def envC10W : Env :=
  mkEnv (.resp 200 { code := some "090001", data := [[some "x"]], nextPageToken := some "tok" })
    (.resp 200 {}) (fun _ => .resp 200 {}) (.resp 200 {})

theorem str_ne_of_get (p x q : String) (i : Nat)
    (h : p.data.get? i ≠ q.data.get? i) (hip : i < p.data.length) : p ++ x ≠ q := by
  intro he
  apply h
  have hd : (p ++ x).data = q.data := congrArg String.data he
  rw [String.data_append] at hd
  rw [← hd, List.get?_append hip]

theorem take_append_ne_of_get (p x q : String) (n i : Nat)
    (h : p.data.get? i ≠ q.data.get? i) (hip : i < p.data.length) (hin : i < n) :
    ((p ++ x).data).take n ≠ q.data := by
  intro he
  apply h
  have := congrArg (fun l => List.get? l i) he
  simp only at this
  rw [List.get?_take hin, String.data_append, List.get?_append hip] at this
  exact this

theorem take_append_eq (p x : String) :
    ((p ++ x).data).take p.data.length = p.data := by
  rw [String.data_append]
  exact List.take_left _ _

theorem errorKind_validation (m : String) :
    errorKind (validationMark ++ m) = "ValidationFailed" := by
  unfold errorKind
  rw [if_neg (take_append_ne_of_get validationMark m remoteMark _ 0 (by decide) (by decide)
    (by decide))]
  rw [if_neg (str_ne_of_get validationMark m timeoutMsgFull 0 (by decide) (by decide))]
  rw [if_pos (take_append_eq validationMark m)]

theorem errorKind_remote (m : String) :
    errorKind (remoteMark ++ m) = "RemoteQueryFailed" := by
  unfold errorKind
  rw [if_pos (take_append_eq remoteMark m)]

theorem errorKind_timeout : errorKind timeoutMsgFull = "TimedOut" := by decide

theorem errorKind_api (m : String) :
    errorKind (apiMark ++ m) = "TransportError" := by
  unfold errorKind
  rw [if_neg (take_append_ne_of_get apiMark m remoteMark _ 0 (by decide) (by decide)
    (by decide))]
  rw [if_neg (str_ne_of_get apiMark m timeoutMsgFull 0 (by decide) (by decide))]
  rw [if_neg (take_append_ne_of_get apiMark m validationMark _ 1 (by decide) (by decide)
    (by decide))]
  rw [if_pos (take_append_eq apiMark m)]

/-- C5: for every account, username, loaded key fingerprint and clock
reading, the JWT payload built by `create_jwt_token` has expiry equal to
issued-at plus exactly 3600 seconds, issuer
`{ACCOUNT_UPPER}.{USER_UPPER}.SHA256:{fingerprint}`, and subject
`{ACCOUNT_UPPER}.{USER_UPPER}`. -/
theorem C5_jwt_payload_shape (account username fp : String) (now : Int) :
    (createJwtPayload account username fp now).exp
        = (createJwtPayload account username fp now).iat + 3600
      ∧ (createJwtPayload account username fp now).iss
        = account.toUpper ++ "." ++ username.toUpper ++ ".SHA256:" ++ fp
      ∧ (createJwtPayload account username fp now).sub
        = account.toUpper ++ "." ++ username.toUpper :=
  ⟨rfl, rfl, rfl⟩

theorem enum_map_fst_comp (l : List PyValue) :
    (l.enum).map (fun p => toString (p.1 + 1))
      = (List.range l.length).map (fun i => toString (i + 1)) := by
  rw [show (fun (p : Nat × PyValue) => toString (p.1 + 1))
      = ((fun i => toString (i + 1)) ∘ Prod.fst) from rfl]
  rw [← List.map_map, List.enum_map_fst]

theorem enum_map_snd_comp (l : List PyValue) :
    (l.enum).map (fun p => determineBinding p.2) = l.map determineBinding := by
  rw [show (fun (p : Nat × PyValue) => determineBinding p.2)
      = (determineBinding ∘ Prod.snd) from rfl]
  rw [← List.map_map, List.enum_map_snd]

/-- C4: for every parameter mapping, `_format_bindings` emits positions 1..N
in insertion order, and `_determine_binding` chooses exactly one type tag by
first match: booleans tag BOOLEAN as lowercase true/false; values whose
integer parse re-stringifies identically tag FIXED with the canonical
integer string; otherwise float-parseable values tag REAL; all else TEXT.
Concretely `"42"` tags FIXED, `"3.14"` tags REAL, and the non-round-tripping
`"00123"` does not tag FIXED. -/
theorem C4_binding_rule :
    (∀ ps : List (String × PyValue),
        (formatBindings ps).map Prod.fst
          = (List.range ps.length).map (fun i => toString (i + 1))
      ∧ (formatBindings ps).map Prod.snd = (ps.map Prod.snd).map determineBinding)
  ∧ (∀ b, determineBinding (.bool b)
      = ⟨"BOOLEAN", .pys (if b then "true" else "false")⟩)
  ∧ (∀ v, (∀ b, v ≠ .bool b) → ∀ n, pyInt v = some n → toString n = pyStr v →
      determineBinding v = ⟨"FIXED", .pys (toString n)⟩)
  ∧ (∀ v, (∀ b, v ≠ .bool b) → (∀ n, pyInt v = some n → toString n ≠ pyStr v) →
      ∀ f, pyFloatOf v = some f →
      determineBinding v = ⟨"REAL", .pys (pyFloatStr f)⟩)
  ∧ (∀ v, (∀ b, v ≠ .bool b) → (∀ n, pyInt v = some n → toString n ≠ pyStr v) →
      pyFloatOf v = none →
      determineBinding v = ⟨"TEXT", .pys (pyStr v)⟩)
  ∧ determineBinding (.str "42") = ⟨"FIXED", .pys "42"⟩
  ∧ determineBinding (.str "3.14") = ⟨"REAL", .pys "3.14"⟩
  ∧ (determineBinding (.str "00123")).type ≠ "FIXED" := by
  refine ⟨?_, ?_, ?_, ?_, ?_, by decide, by decide, by decide⟩
  · intro ps
    constructor
    · unfold formatBindings
      rw [List.map_map]
      have := enum_map_fst_comp (ps.map Prod.snd)
      simp only [List.length_map] at this
      exact this
    · unfold formatBindings
      rw [List.map_map]
      exact enum_map_snd_comp (ps.map Prod.snd)
  · intro b; cases b <;> decide
  · intro v hb n hint hrt
    cases v with
    | bool b => exact absurd rfl (hb b)
    | int m =>
      simp only [pyInt, Option.some.injEq] at hint
      subst hint
      simp [determineBinding, pyInt, hrt]
    | float f =>
      simp only [pyInt, Option.some.injEq] at hint
      simp [determineBinding, pyInt, hint, hrt]
    | str s =>
      simp only [pyInt] at hint
      simp [determineBinding, pyInt, hint, hrt]
    | pynone => simp only [pyInt] at hint; cases hint
  · intro v hb hno f hf
    cases v with
    | bool b => exact absurd rfl (hb b)
    | int m =>
      have := hno m rfl
      simp [pyStr] at this
    | float g =>
      simp only [pyFloatOf, Option.some.injEq] at hf
      subst hf
      simp [determineBinding, pyInt, pyFloatOf, hno _ rfl]
    | str s =>
      simp only [pyFloatOf] at hf
      cases hi : pyIntParse s with
      | none => simp [determineBinding, pyInt, hi, pyFloatOf, hf]
      | some n =>
        have hcond := hno n (by simp [pyInt, hi])
        simp [determineBinding, pyInt, hi, hcond, pyFloatOf, hf]
    | pynone => simp only [pyFloatOf] at hf; cases hf
  · intro v hb hno hf
    cases v with
    | bool b => exact absurd rfl (hb b)
    | int m => simp only [pyFloatOf] at hf; cases hf
    | float g => simp only [pyFloatOf] at hf; cases hf
    | str s =>
      simp only [pyFloatOf] at hf
      cases hi : pyIntParse s with
      | none => simp [determineBinding, pyInt, hi, pyFloatOf, hf]
      | some n =>
        have hcond := hno n (by simp [pyInt, hi])
        simp [determineBinding, pyInt, hi, hcond, pyFloatOf, hf]
    | pynone => rfl

/-- Witness for C4 at concrete inputs: a round-tripping integer string, a
float string, and `None`. -/
theorem C4_binding_rule_witness :
    determineBinding (.str "17") = ⟨"FIXED", .pys "17"⟩
      ∧ determineBinding (.str "2.5") = ⟨"REAL", .pys "2.5"⟩
      ∧ determineBinding .pynone = ⟨"TEXT", .pys "None"⟩ :=
  ⟨C4_binding_rule.2.2.1 (.str "17") (by intro b h; cases h) 17 (by decide) (by decide),
   C4_binding_rule.2.2.2.1 (.str "2.5") (by intro b h; cases h)
     (by intro n hn hrt
         rw [show pyInt (PyValue.str "2.5") = none from by decide] at hn
         cases hn) ⟨25, 1⟩ (by decide),
   C4_binding_rule.2.2.2.2.1 .pynone (by intro b h; cases h)
     (by intro n hn; simp only [pyInt] at hn; cases hn) (by decide)⟩

/-- C9: every encoded binding is a record whose type tag is drawn from the
closed set BOOLEAN/FIXED/REAL/TEXT and whose value is always a string,
never the raw unconverted input; and the bindings map has exactly the keys
"1".."N" for N parameters, in order. -/
theorem C9_binding_invariants :
    (∀ v, ((determineBinding v).type = "BOOLEAN" ∨ (determineBinding v).type = "FIXED"
        ∨ (determineBinding v).type = "REAL" ∨ (determineBinding v).type = "TEXT")
      ∧ ∃ s, (determineBinding v).value = .pys s)
  ∧ (∀ ps : List (String × PyValue),
      (formatBindings ps).map Prod.fst
        = (List.range ps.length).map (fun i => toString (i + 1))) := by
  constructor
  · intro v
    cases v <;> simp only [determineBinding] <;> (repeat' split) <;> simp
  · intro ps
    unfold formatBindings
    rw [List.map_map]
    have := enum_map_fst_comp (ps.map Prod.snd)
    simp only [List.length_map] at this
    exact this

theorem validateSql_ok {env : Env} {sql : String} {params : List (String × PyValue)}
    {s : ExecState} {vst : Nat} {vbody : SfResponse}
    (h1 : env.respond s.trace.length
      (.postStatement ("EXPLAIN " ++ sql) (requestBindings params)) = .resp vst vbody)
    (h2 : vst < 400) (h3 : vbody.code = some "090001") :
    validateSql env sql params s = (.ok (),
      { trace := s.trace ++ [(.postStatement ("EXPLAIN " ++ sql) (requestBindings params), s.clock)]
        clock := s.clock + env.duration s.trace.length
          (.postStatement ("EXPLAIN " ++ sql) (requestBindings params)) }) := by
  unfold validateSql doRequest
  simp only [h1, h3]
  rw [if_neg (by omega : ¬ (400 ≤ vst))]
  simp

theorem validateSql_transport {env : Env} {sql : String} {params : List (String × PyValue)}
    {s : ExecState} {m : String}
    (h1 : env.respond s.trace.length
      (.postStatement ("EXPLAIN " ++ sql) (requestBindings params)) = .transportError m) :
    validateSql env sql params s = (.error (.generic ("SQL validation error: " ++ m)),
      { trace := s.trace ++ [(.postStatement ("EXPLAIN " ++ sql) (requestBindings params), s.clock)]
        clock := s.clock + env.duration s.trace.length
          (.postStatement ("EXPLAIN " ++ sql) (requestBindings params)) }) := by
  unfold validateSql doRequest
  simp only [h1]

theorem validateSql_httpError {env : Env} {sql : String} {params : List (String × PyValue)}
    {s : ExecState} {vst : Nat} {vbody : SfResponse}
    (h1 : env.respond s.trace.length
      (.postStatement ("EXPLAIN " ++ sql) (requestBindings params)) = .resp vst vbody)
    (h2 : 400 ≤ vst) :
    validateSql env sql params s = (.error (.generic ("Snowflake API error during validation: "
        ++ toString vst ++ " - " ++ vbody.text)),
      { trace := s.trace ++ [(.postStatement ("EXPLAIN " ++ sql) (requestBindings params), s.clock)]
        clock := s.clock + env.duration s.trace.length
          (.postStatement ("EXPLAIN " ++ sql) (requestBindings params)) }) := by
  unfold validateSql doRequest
  simp only [h1]
  rw [if_pos h2]

theorem validateSql_badCode {env : Env} {sql : String} {params : List (String × PyValue)}
    {s : ExecState} {vst : Nat} {vbody : SfResponse}
    (h1 : env.respond s.trace.length
      (.postStatement ("EXPLAIN " ++ sql) (requestBindings params)) = .resp vst vbody)
    (h2 : vst < 400) (h3 : vbody.code ≠ some "090001") :
    validateSql env sql params s = (.error (.generic ("SQL validation error: "
        ++ vbody.message.getD "SQL validation failed")),
      { trace := s.trace ++ [(.postStatement ("EXPLAIN " ++ sql) (requestBindings params), s.clock)]
        clock := s.clock + env.duration s.trace.length
          (.postStatement ("EXPLAIN " ++ sql) (requestBindings params)) }) := by
  unfold validateSql doRequest
  simp only [h1]
  rw [if_neg (by omega : ¬ (400 ≤ vst)), if_neg h3]

theorem executeSql_validate_ok {env : Env} {sql : String} {params : List (String × PyValue)}
    {s : ExecState} {vst : Nat} {vbody : SfResponse} (pi tmo : Int) (fuel : Nat)
    (h1 : env.respond s.trace.length
      (.postStatement ("EXPLAIN " ++ sql) (requestBindings params)) = .resp vst vbody)
    (h2 : vst < 400) (h3 : vbody.code = some "090001") :
    executeSql env sql params pi tmo fuel s = executeSqlTry env sql params pi tmo fuel
      { trace := s.trace ++ [(.postStatement ("EXPLAIN " ++ sql) (requestBindings params), s.clock)]
        clock := s.clock + env.duration s.trace.length
          (.postStatement ("EXPLAIN " ++ sql) (requestBindings params)) } := by
  unfold executeSql
  rw [validateSql_ok h1 h2 h3]

theorem explain_request_ne (sql : String) (b b' : Option (List (String × SfBinding))) :
    SfRequest.postStatement sql b ≠ SfRequest.postStatement ("EXPLAIN " ++ sql) b' := by
  intro h
  injection h with h1 _
  have hlen := congrArg String.length h1
  have h8 : ("EXPLAIN " : String).length = 8 := rfl
  rw [String.length_append, h8] at hlen
  omega

/-- C1: if the pre-execution validation request (the statement wrapped in a
plan-only EXPLAIN directive) returns a non-success response, `execute_sql`
aborts with a validation error and zero requests are ever made that carry
the caller's statement: the only request in the whole trace is the single
EXPLAIN probe, so the statement is never executed. -/
theorem C1_validation_failure_blocks_execution
    (env : Env) (sql : String) (params : List (String × PyValue))
    (pi tmo : Int) (fuel : Nat)
    (hv : ∀ vst vbody, env.respond 0
        (.postStatement ("EXPLAIN " ++ sql) (requestBindings params)) = .resp vst vbody →
      vst < 400 → vbody.code ≠ some "090001") :
    ∃ e s', executeSql env sql params pi tmo fuel initState = some (.error e, s')
      ∧ s'.trace.map Prod.fst = [.postStatement ("EXPLAIN " ++ sql) (requestBindings params)]
      ∧ (∃ m, e = .generic ("SQL validation error: " ++ m)
          ∨ e = .generic ("Snowflake API error during validation: " ++ m))
      ∧ ∀ b, SfRequest.postStatement sql b ∉ s'.trace.map Prod.fst := by
  have h0 : initState.trace.length = 0 := rfl
  cases hr : env.respond 0 (.postStatement ("EXPLAIN " ++ sql) (requestBindings params)) with
  | transportError m =>
    unfold executeSql
    rw [validateSql_transport (h0 ▸ hr)]
    refine ⟨_, _, rfl, by simp [initState], ⟨m, Or.inl rfl⟩, ?_⟩
    intro b
    simp only [initState, List.nil_append, List.map_cons, List.map_nil, List.mem_singleton]
    exact explain_request_ne sql b _
  | resp st body =>
    by_cases hst : 400 ≤ st
    · unfold executeSql
      rw [validateSql_httpError (h0 ▸ hr) hst]
      refine ⟨_, _, rfl, by simp [initState],
        ⟨toString st ++ (" - " ++ body.text), by rw [String.append_assoc, String.append_assoc]; exact Or.inr rfl⟩, ?_⟩
      intro b
      simp only [initState, List.nil_append, List.map_cons, List.map_nil, List.mem_singleton]
      exact explain_request_ne sql b _
    · unfold executeSql
      rw [validateSql_badCode (h0 ▸ hr) (by omega) (hv st body hr (by omega))]
      refine ⟨_, _, rfl, by simp [initState], ⟨body.message.getD "SQL validation failed", Or.inl rfl⟩, ?_⟩
      intro b
      simp only [initState, List.nil_append, List.map_cons, List.map_nil, List.mem_singleton]
      exact explain_request_ne sql b _

/-- Witness for C1 at a concrete rejecting environment. -/
theorem C1_witness :
    ∃ e s', executeSql envC1W "SELECT 1" [] 1 60 5 initState = some (.error e, s')
      ∧ s'.trace.map Prod.fst = [.postStatement ("EXPLAIN " ++ "SELECT 1") (requestBindings [])]
      ∧ (∃ m, e = .generic ("SQL validation error: " ++ m)
          ∨ e = .generic ("Snowflake API error during validation: " ++ m))
      ∧ ∀ b, SfRequest.postStatement "SELECT 1" b ∉ s'.trace.map Prod.fst :=
  C1_validation_failure_blocks_execution envC1W "SELECT 1" [] 1 60 5
    (by intro vst vbody h _
        simp only [envC1W] at h
        injection h with h1 h2
        rw [← h2]
        decide)

theorem fetchLoop_stop (env : Env) (handle : Option String) (fuel : Nat)
    (rows : List SfRow) (tok : Option String) (s : ExecState)
    (hg : (optTruthy handle && optTruthy tok) = false) :
    fetchLoop env handle fuel rows tok s = some (.ok rows, s) := by
  unfold fetchLoop
  rw [hg]
  simp

theorem fetchAllPages_stop (env : Env) (result : SfResponse) (handle : Option String)
    (fuel : Nat) (s : ExecState)
    (hg : (optTruthy handle && optTruthy result.nextPageToken) = false) :
    fetchAllPages env result handle fuel s = some (.ok result, s) := by
  unfold fetchAllPages
  rw [fetchLoop_stop env handle fuel result.data result.nextPageToken s hg]

theorem processResult_ok {r : SfResponse} (h : r.code = some "090001") :
    processResult r = .ok
      { success := true, data := r.data,
        columns := ((r.resultSetMetaData.getD {}).rowType.getD []).map ColInfo.name,
        row_count := (r.resultSetMetaData.getD {}).numRows.getD 0,
        query_id := r.statementHandle } := by
  unfold processResult
  rw [if_neg (by simp [h])]

theorem executeSqlTry_sync {env : Env} {sql : String} {params : List (String × PyValue)}
    {pi tmo : Int} {fuel : Nat} {s1 : ExecState} {est : Nat} {r : SfResponse}
    (hex : env.respond s1.trace.length (.postStatement sql (requestBindings params))
      = .resp est r)
    (he2 : est < 400) (he3 : est ≠ 202) (he4 : r.code ≠ some "333333")
    (hg : (optTruthy r.statementHandle && optTruthy r.nextPageToken) = false) :
    executeSqlTry env sql params pi tmo fuel s1 =
      (match processResult r with
       | .error e => some (.error (execExceptArm e),
          { trace := s1.trace ++ [(SfRequest.postStatement sql (requestBindings params), s1.clock)]
            clock := s1.clock + env.duration s1.trace.length
              (SfRequest.postStatement sql (requestBindings params)) })
       | .ok outcome => some (.ok outcome,
          { trace := s1.trace ++ [(SfRequest.postStatement sql (requestBindings params), s1.clock)]
            clock := s1.clock + env.duration s1.trace.length
              (SfRequest.postStatement sql (requestBindings params)) })) := by
  unfold executeSqlTry doRequest
  simp only [hex]
  rw [if_neg (by omega : ¬ (400 ≤ est))]
  rw [if_neg (show ¬ (est = 202 ∨ r.code = some "333333") by
    rintro (h | h)
    · exact he3 h
    · exact he4 h)]
  simp only
  rw [fetchAllPages_stop env r r.statementHandle fuel _ hg]

/-- C6: for every statement the remote completes synchronously with a
terminal success response, `execute_sql` returns an outcome with
`success = true` and rows equal to the single returned page, and no
status-poll request is ever made. -/
theorem C6_sync_success_no_polling
    (env : Env) (sql : String) (params : List (String × PyValue))
    (pi tmo : Int) (fuel : Nat) {vst est : Nat} {vbody r : SfResponse}
    (hval : env.respond 0 (.postStatement ("EXPLAIN " ++ sql) (requestBindings params))
      = .resp vst vbody)
    (hv2 : vst < 400) (hv3 : vbody.code = some "090001")
    (hex : env.respond 1 (.postStatement sql (requestBindings params)) = .resp est r)
    (he2 : est < 400) (he3 : est ≠ 202) (he4 : r.code = some "090001")
    (hnt : optTruthy r.nextPageToken = false) :
    ∃ s', executeSql env sql params pi tmo fuel initState = some (.ok
        { success := true, data := r.data,
          columns := ((r.resultSetMetaData.getD {}).rowType.getD []).map ColInfo.name,
          row_count := (r.resultSetMetaData.getD {}).numRows.getD 0,
          query_id := r.statementHandle }, s')
      ∧ s'.trace.map Prod.fst = [.postStatement ("EXPLAIN " ++ sql) (requestBindings params),
          .postStatement sql (requestBindings params)]
      ∧ ∀ hh, SfRequest.getStatus hh ∉ s'.trace.map Prod.fst := by
  rw [executeSql_validate_ok pi tmo fuel (show env.respond initState.trace.length _ = _ from hval)
    hv2 hv3]
  rw [executeSqlTry_sync (show env.respond 1 _ = _ from hex) he2 he3
    (by rw [he4]; decide) (by rw [hnt, Bool.and_false])]
  rw [processResult_ok he4]
  refine ⟨_, rfl, by simp [initState], ?_⟩
  intro hh
  simp [initState]

/-- Witness for C6 at a concrete synchronous success. -/
theorem C6_witness :
    ∃ s', executeSql envC6W "SELECT 1" [] 1 60 5 initState = some (.ok
        { success := true, data := syncOkResp.data,
          columns := ((syncOkResp.resultSetMetaData.getD {}).rowType.getD []).map ColInfo.name,
          row_count := (syncOkResp.resultSetMetaData.getD {}).numRows.getD 0,
          query_id := syncOkResp.statementHandle }, s')
      ∧ s'.trace.map Prod.fst = [.postStatement ("EXPLAIN " ++ "SELECT 1") (requestBindings []),
          .postStatement "SELECT 1" (requestBindings [])]
      ∧ ∀ hh, SfRequest.getStatus hh ∉ s'.trace.map Prod.fst :=
  @C6_sync_success_no_polling envC6W "SELECT 1" [] 1 60 5 200 200 okExplainResp syncOkResp
    (by decide) (by decide) (by decide) (by decide) (by decide) (by decide) (by decide) (by decide)

/-- C10: the pagination loop proceeds only when both a statement handle and
a continuation token are present; in particular, when the initial response
carries a continuation token but no handle, no additional page is fetched
and exactly the first response's rows are returned. -/
theorem C10_pagination_needs_handle_and_token :
    (∀ env fuel rows tok s, fetchLoop env none fuel rows tok s = some (.ok rows, s))
  ∧ (∀ env h fuel rows s, fetchLoop env h fuel rows none s = some (.ok rows, s))
  ∧ ∀ (env : Env) (sql : String) (params : List (String × PyValue))
      (pi tmo : Int) (fuel : Nat) (vst est : Nat) (vbody r : SfResponse) (tok : String),
      env.respond 0 (.postStatement ("EXPLAIN " ++ sql) (requestBindings params))
        = .resp vst vbody →
      vst < 400 → vbody.code = some "090001" →
      env.respond 1 (.postStatement sql (requestBindings params)) = .resp est r →
      est < 400 → est ≠ 202 → r.code = some "090001" →
      r.statementHandle = none → r.nextPageToken = some tok →
      ∃ s', executeSql env sql params pi tmo fuel initState = some (.ok
          { success := true, data := r.data,
            columns := ((r.resultSetMetaData.getD {}).rowType.getD []).map ColInfo.name,
            row_count := (r.resultSetMetaData.getD {}).numRows.getD 0,
            query_id := none }, s')
        ∧ s'.trace.map Prod.fst = [.postStatement ("EXPLAIN " ++ sql) (requestBindings params),
            .postStatement sql (requestBindings params)]
        ∧ ∀ hh t, SfRequest.getPage hh t ∉ s'.trace.map Prod.fst := by
  refine ⟨?_, ?_, ?_⟩
  · intro env fuel rows tok s
    exact fetchLoop_stop env none fuel rows tok s (by rw [show optTruthy none = false from rfl,
      Bool.false_and])
  · intro env h fuel rows s
    exact fetchLoop_stop env h fuel rows none s (by rw [show optTruthy none = false from rfl,
      Bool.and_false])
  · intro env sql params pi tmo fuel vst est vbody r tok hval hv2 hv3 hex he2 he3 he4 hh0 ht0
    rw [executeSql_validate_ok pi tmo fuel (show env.respond initState.trace.length _ = _ from hval)
      hv2 hv3]
    rw [executeSqlTry_sync (show env.respond 1 _ = _ from hex) he2 he3
      (by rw [he4]; decide) (by rw [hh0]; rw [show optTruthy none = false from rfl, Bool.false_and])]
    rw [processResult_ok he4, hh0]
    refine ⟨_, rfl, by simp [initState], ?_⟩
    intro hh t
    simp [initState]

/-- Witness for C10 at a concrete handle-less token response. -/
theorem C10_witness :
    ∃ s', executeSql envC10W "SELECT 1" [] 1 60 5 initState = some (.ok
        { success := true, data := [[some "x"]], columns := [], row_count := 0,
          query_id := none }, s')
      ∧ s'.trace.map Prod.fst = [.postStatement ("EXPLAIN " ++ "SELECT 1") (requestBindings []),
          .postStatement "SELECT 1" (requestBindings [])]
      ∧ ∀ hh t, SfRequest.getPage hh t ∉ s'.trace.map Prod.fst :=
  C10_pagination_needs_handle_and_token.2.2 envC10W "SELECT 1" [] 1 60 5 200 200 okExplainResp
    { code := some "090001", data := [[some "x"]], nextPageToken := some "tok" } "tok"
    (by decide) (by decide) (by decide) (by decide) (by decide) (by decide) (by decide)
    (by decide) (by decide)

theorem timeout_iterations (pi tmo : Int) (hpi : 0 < pi) (hto : 0 ≤ tmo) :
    ∀ m : Nat, (tmo.toNat / pi.toNat + 1 ≤ m ↔ tmo < (m : Int) * pi) := by
  intro m
  have hpn : 0 < pi.toNat := by omega
  have h1 : (tmo.toNat : Int) = tmo := Int.toNat_of_nonneg hto
  have h2 : (pi.toNat : Int) = pi := Int.toNat_of_nonneg (le_of_lt hpi)
  constructor
  · intro h
    have hlt : tmo.toNat / pi.toNat < m := by omega
    have hmul := (Nat.div_lt_iff_lt_mul hpn).mp hlt
    have hcast : (tmo.toNat : Int) < (m : Int) * (pi.toNat : Int) := by exact_mod_cast hmul
    rw [h1, h2] at hcast
    exact hcast
  · intro h
    have hcast : (tmo.toNat : Int) < (m : Int) * (pi.toNat : Int) := by rw [h1, h2]; exact h
    have hmul : tmo.toNat < m * pi.toNat := by exact_mod_cast hcast
    have := (Nat.div_lt_iff_lt_mul hpn).mpr hmul
    omega

theorem pollLoop_never_terminal (env : Env) (h : String) (pi tmo start : Int) (N : Nat)
    (hN : ∀ m : Nat, (N ≤ m ↔ tmo < (m : Int) * pi))
    (hresp : ∀ i, ∃ st r, env.respond i (.getStatus h) = .resp st r ∧ st < 400
      ∧ nonTerminalStatus r)
    (hdur : ∀ i, env.duration i (.getStatus h) = 0) :
    ∀ (fuel k : Nat) (s : ExecState), s.clock = start + (k : Int) * pi → N ≤ k + fuel →
    ∃ s', pollLoop env h pi tmo start fuel s =
        some (.error (.timeoutError "Snowflake query timed out and was cancelled"), s')
      ∧ s'.trace.map Prod.fst = s.trace.map Prod.fst
          ++ List.replicate (N - k) (SfRequest.getStatus h) ++ [SfRequest.postCancel h] := by
  intro fuel
  induction fuel with
  | zero =>
    intro k s hclock hfuel
    have hk : N ≤ k := by omega
    have hfire : tmo < s.clock - start := by
      have := (hN k).mp hk
      rw [hclock]
      linarith
    unfold pollLoop
    rw [if_pos hfire]
    refine ⟨_, rfl, ?_⟩
    unfold cancelQuery doRequest
    have : N - k = 0 := by omega
    simp [this]
  | succ f ih =>
    intro k s hclock hfuel
    by_cases hk : N ≤ k
    · have hfire : tmo < s.clock - start := by
        have := (hN k).mp hk
        rw [hclock]
        linarith
      unfold pollLoop
      rw [if_pos hfire]
      refine ⟨_, rfl, ?_⟩
      unfold cancelQuery doRequest
      have : N - k = 0 := by omega
      simp [this]
    · have hnofire : ¬ (tmo < s.clock - start) := by
        intro hcon
        rw [hclock] at hcon
        have : tmo < (k : Int) * pi := by linarith
        exact hk ((hN k).mpr this)
      obtain ⟨st, r, hr, hst, hterm⟩ := hresp s.trace.length
      simp only [nonTerminalStatus, List.mem_cons, List.mem_singleton, not_or] at hterm
      obtain ⟨ht1, ht2, ht3, ht4, ht5⟩ := hterm
      unfold pollLoop
      rw [if_neg hnofire]
      simp only [doRequest, hr]
      rw [if_neg (by omega : ¬ (400 ≤ st))]
      rw [if_neg (by simp [ht1, ht2])]
      rw [if_neg (by simp [ht3, ht4, ht5])]
      have hclock2 : s.clock + env.duration s.trace.length (SfRequest.getStatus h) + pi
          = start + ((k + 1 : Nat) : Int) * pi := by
        simp only [hdur s.trace.length]
        push_cast
        rw [hclock]
        ring
      obtain ⟨s', heq, htr⟩ := ih (k + 1)
        { trace := s.trace ++ [(SfRequest.getStatus h, s.clock)]
          clock := s.clock + env.duration s.trace.length (SfRequest.getStatus h) + pi }
        hclock2 (by omega)
      refine ⟨s', ?_, ?_⟩
      · rw [← heq]
      · rw [htr]
        have hrep : N - k = (N - (k + 1)) + 1 := by omega
        simp only [List.map_append, List.map_cons, List.map_nil]
        rw [hrep, List.replicate_succ]
        simp [List.append_assoc]

theorem executeSqlTry_pollError {env : Env} {sql : String} {params : List (String × PyValue)}
    {pi tmo : Int} {fuel : Nat} {s1 : ExecState} {est : Nat} {r : SfResponse}
    {e : PyExn} {s2 : ExecState}
    (hex : env.respond s1.trace.length (.postStatement sql (requestBindings params))
      = .resp est r)
    (he2 : est < 400) (he3 : est = 202 ∨ r.code = some "333333")
    (hpoll : pollForResult env (pyShowOpt r.statementHandle) pi tmo fuel
      { trace := s1.trace ++ [(SfRequest.postStatement sql (requestBindings params), s1.clock)]
        clock := s1.clock + env.duration s1.trace.length
          (SfRequest.postStatement sql (requestBindings params)) } = some (.error e, s2)) :
    executeSqlTry env sql params pi tmo fuel s1 = some (.error (execExceptArm e), s2) := by
  unfold executeSqlTry doRequest
  simp only [hex]
  rw [if_neg (by omega : ¬ (400 ≤ est))]
  rw [if_pos he3]
  rw [hpoll]

/-- C2: for every execution in which the statement never reaches a terminal
status within `overallTimeout`, the executor terminates with the timed-out
error, having issued exactly one best-effort cancel request against the
statement handle (and exactly one poll per elapsed interval within the
deadline); and the effect of the cancel step is independent of how the
remote answers the cancel, so a failing cancel is logged, never raised. -/
theorem C2_timeout_single_cancel :
    (∀ (env : Env) (sql : String) (params : List (String × PyValue))
        (pi tmo : Int) (fuel : Nat) (h : String) (vst est : Nat) (vbody r : SfResponse),
      0 < pi → 0 ≤ tmo →
      env.respond 0 (.postStatement ("EXPLAIN " ++ sql) (requestBindings params))
        = .resp vst vbody →
      vst < 400 → vbody.code = some "090001" →
      env.respond 1 (.postStatement sql (requestBindings params)) = .resp est r →
      est < 400 → (est = 202 ∨ r.code = some "333333") → r.statementHandle = some h →
      (∀ i, ∃ st rr, env.respond i (.getStatus h) = .resp st rr ∧ st < 400
        ∧ nonTerminalStatus rr) →
      (∀ i, env.duration i (.getStatus h) = 0) →
      tmo.toNat / pi.toNat + 1 ≤ fuel →
      ∃ s', executeSql env sql params pi tmo fuel initState
          = some (.error (.generic
              "Query execution error: Snowflake query timed out and was cancelled"), s')
        ∧ (s'.trace.map Prod.fst).count (SfRequest.postCancel h) = 1
        ∧ (s'.trace.map Prod.fst).count (SfRequest.getStatus h)
            = tmo.toNat / pi.toNat + 1)
  ∧ (∀ (e1 e2 : Env) (hh : String) (ss : ExecState),
      (∀ i rq, e1.duration i rq = e2.duration i rq) →
      cancelQuery e1 hh ss = cancelQuery e2 hh ss) := by
  constructor
  · intro env sql params pi tmo fuel h vst est vbody r hpi hto hval hv2 hv3 hex he2 he3 hh0
      hpolls hpolldur hfuel
    rw [executeSql_validate_ok pi tmo fuel (show env.respond initState.trace.length _ = _ from hval)
      hv2 hv3]
    obtain ⟨s', hpoll, htr⟩ := pollLoop_never_terminal env h pi tmo
      (initState.clock + env.duration initState.trace.length
          (SfRequest.postStatement ("EXPLAIN " ++ sql) (requestBindings params))
        + env.duration 1 (SfRequest.postStatement sql (requestBindings params)))
      (tmo.toNat / pi.toNat + 1) (timeout_iterations pi tmo hpi hto) hpolls hpolldur
      fuel 0
      { trace := (initState.trace ++ [(SfRequest.postStatement ("EXPLAIN " ++ sql)
            (requestBindings params), initState.clock)])
          ++ [(SfRequest.postStatement sql (requestBindings params),
            initState.clock + env.duration initState.trace.length
              (SfRequest.postStatement ("EXPLAIN " ++ sql) (requestBindings params)))]
        clock := initState.clock + env.duration initState.trace.length
            (SfRequest.postStatement ("EXPLAIN " ++ sql) (requestBindings params))
          + env.duration 1 (SfRequest.postStatement sql (requestBindings params)) }
      (by push_cast; ring) (by omega)
    rw [executeSqlTry_pollError (show env.respond 1 _ = _ from hex) he2 he3
      (by rw [hh0]; exact hpoll)]
    refine ⟨s', rfl, ?_, ?_⟩
    · rw [htr]
      simp only [initState, List.nil_append, List.map_append, List.map_cons, List.map_nil,
        List.count_append]
      rw [List.count_replicate]
      simp
    · rw [htr]
      simp only [initState, List.nil_append, List.map_append, List.map_cons, List.map_nil,
        List.count_append]
      rw [List.count_replicate]
      simp
  · intro e1 e2 hh ss hd
    unfold cancelQuery doRequest
    rw [hd ss.trace.length (SfRequest.postCancel hh)]

/-- Witness for C2 at a concrete never-terminating environment whose cancel
endpoint fails at the transport level. -/
theorem C2_witness :
    ∃ s', executeSql envC2W "SELECT 1" [] 1 0 3 initState
        = some (.error (.generic
            "Query execution error: Snowflake query timed out and was cancelled"), s')
      ∧ (s'.trace.map Prod.fst).count (SfRequest.postCancel "h7") = 1
      ∧ (s'.trace.map Prod.fst).count (SfRequest.getStatus "h7")
          = (0 : Int).toNat / (1 : Int).toNat + 1 :=
  C2_timeout_single_cancel.1 envC2W "SELECT 1" [] 1 0 3 "h7" 200 202 okExplainResp
    { code := some "333333", statementHandle := some "h7" }
    (by decide) (by decide) (by decide) (by decide) (by decide) (by decide) (by decide)
    (by decide) (by decide)
    (by intro i
        exact ⟨200, runningResp, rfl, by omega, by unfold nonTerminalStatus; decide⟩)
    (by intro i; rfl) (by decide)

theorem mem_push_cases {tr : List (SfRequest × Int)} {req rq : SfRequest} {t tc : Int}
    (hmem : (req, t) ∈ tr ++ [(rq, tc)]) :
    (req, t) ∈ tr ∨ (req = rq ∧ t = tc) := by
  simp only [List.mem_append, List.mem_singleton, Prod.mk.injEq] at hmem
  exact hmem

theorem pollLoop_entry_bound (env : Env) (h : String) (pi tmo start : Int) :
    ∀ (fuel : Nat) (s : ExecState) (res : Except PyExn SfResponse) (s' : ExecState),
      pollLoop env h pi tmo start fuel s = some (res, s') →
      ∀ req t, (req, t) ∈ s'.trace →
        ((req, t) ∈ s.trace ∨ req = SfRequest.postCancel h ∨ t ≤ start + tmo) := by
  intro fuel
  induction fuel with
  | zero =>
    intro s res s' hrun req t hmem
    unfold pollLoop at hrun
    by_cases hfire : tmo < s.clock - start
    · rw [if_pos hfire] at hrun
      simp only [Option.some.injEq, Prod.mk.injEq] at hrun
      obtain ⟨-, hs'⟩ := hrun
      subst hs'
      unfold cancelQuery doRequest at hmem
      rcases mem_push_cases hmem with hm | hm
      · exact Or.inl hm
      · exact Or.inr (Or.inl hm.1)
    · rw [if_neg hfire] at hrun
      cases hrun
  | succ f ih =>
    intro s res s' hrun req t hmem
    unfold pollLoop at hrun
    by_cases hfire : tmo < s.clock - start
    · rw [if_pos hfire] at hrun
      simp only [Option.some.injEq, Prod.mk.injEq] at hrun
      obtain ⟨-, hs'⟩ := hrun
      subst hs'
      unfold cancelQuery doRequest at hmem
      rcases mem_push_cases hmem with hm | hm
      · exact Or.inl hm
      · exact Or.inr (Or.inl hm.1)
    · rw [if_neg hfire] at hrun
      have hclok : s.clock ≤ start + tmo := by omega
      rcases henv : env.respond s.trace.length (.getStatus h) with ⟨st, body⟩ | m
      · simp only [doRequest, henv] at hrun
        by_cases hst : 400 ≤ st
        · rw [if_pos hst] at hrun
          simp only [Option.some.injEq, Prod.mk.injEq] at hrun
          obtain ⟨-, hs'⟩ := hrun
          subst hs'
          rcases mem_push_cases hmem with hm | hm
          · exact Or.inl hm
          · exact Or.inr (Or.inr (hm.2 ▸ hclok))
        · rw [if_neg hst] at hrun
          by_cases hsucc : pyStatusOf body.status = some "SUCCESS"
              ∨ pyStatusOf body.status = some "SUCCEEDED"
          · rw [if_pos hsucc] at hrun
            simp only [Option.some.injEq, Prod.mk.injEq] at hrun
            obtain ⟨-, hs'⟩ := hrun
            subst hs'
            rcases mem_push_cases hmem with hm | hm
            · exact Or.inl hm
            · exact Or.inr (Or.inr (hm.2 ▸ hclok))
          · rw [if_neg hsucc] at hrun
            by_cases hfail : pyStatusOf body.status = some "FAILED"
                ∨ pyStatusOf body.status = some "ABORTED"
                ∨ pyStatusOf body.status = some "FAILED_WITH_ERROR"
            · rw [if_pos hfail] at hrun
              simp only [Option.some.injEq, Prod.mk.injEq] at hrun
              obtain ⟨-, hs'⟩ := hrun
              subst hs'
              rcases mem_push_cases hmem with hm | hm
              · exact Or.inl hm
              · exact Or.inr (Or.inr (hm.2 ▸ hclok))
            · rw [if_neg hfail] at hrun
              rcases ih _ res s' hrun req t hmem with hm | hm | hm
              · rcases mem_push_cases hm with hm2 | hm2
                · exact Or.inl hm2
                · exact Or.inr (Or.inr (hm2.2 ▸ hclok))
              · exact Or.inr (Or.inl hm)
              · exact Or.inr (Or.inr hm)
      · simp only [doRequest, henv] at hrun
        simp only [Option.some.injEq, Prod.mk.injEq] at hrun
        obtain ⟨-, hs'⟩ := hrun
        subst hs'
        rcases mem_push_cases hmem with hm | hm
        · exact Or.inl hm
        · exact Or.inr (Or.inr (hm.2 ▸ hclok))

/-- C7 counterexample: with the real-statement submission taking 100 ticks
and `timeout = 1`, the executor still issues a status poll at clock 101,
long after submission time (0) plus the timeout — so the deadline is not
measured from the first submission. -/
theorem C7_counterexample :
    (∃ s', executeSql envC7cex "SELECT 1" [] 1 1 5 initState
        = some (.error (.generic
            "Query execution error: Snowflake query timed out and was cancelled"), s')
      ∧ (SfRequest.postStatement "SELECT 1" (requestBindings []), (0 : Int)) ∈ s'.trace
      ∧ (SfRequest.getStatus "h7", (101 : Int)) ∈ s'.trace)
    ∧ ¬ ((101 : Int) ≤ 0 + 1) := by
  refine ⟨⟨_, rfl, ?_, ?_⟩, by decide⟩ <;> decide

/-- C7 (amended): the client-side deadline is measured from the clock at
poll-loop entry (after the submission response has arrived), not from the
first submission: every status request the poll loop issues is stamped no
later than poll-start plus `timeout`, whatever the earlier requests'
durations were. -/
theorem C7_deadline_from_poll_start
    (env : Env) (h : String) (pi tmo : Int) (fuel : Nat) (s : ExecState)
    (res : Except PyExn SfResponse) (s' : ExecState) (req : SfRequest) (t : Int)
    (hrun : pollForResult env h pi tmo fuel s = some (res, s'))
    (hmem : (req, t) ∈ s'.trace) (hnew : (req, t) ∉ s.trace)
    (hnc : req ≠ SfRequest.postCancel h) :
    t ≤ s.clock + tmo := by
  unfold pollForResult at hrun
  rcases pollLoop_entry_bound env h pi tmo s.clock fuel s res s' hrun req t hmem with
    hm | hm | hm
  · exact absurd hm hnew
  · exact absurd hm hnc
  · exact hm

/-- Witness for the amended C7, applied to a concrete poll-loop run. -/
theorem C7_witness :
    pollForResult envC7W "h" 1 0 3 initState
      = some (.error (.timeoutError "Snowflake query timed out and was cancelled"),
        { trace := [(SfRequest.getStatus "h", 0), (SfRequest.postCancel "h", 1)], clock := 1 })
    ∧ (0 : Int) ≤ initState.clock + 0 :=
  ⟨rfl, C7_deadline_from_poll_start envC7W "h" 1 0 3 initState
    (.error (.timeoutError "Snowflake query timed out and was cancelled"))
    { trace := [(SfRequest.getStatus "h", 0), (SfRequest.postCancel "h", 1)], clock := 1 }
    (SfRequest.getStatus "h") 0 rfl (by decide) (by decide) (by decide)⟩

theorem processResult_fail {r : SfResponse} (h : r.code ≠ some "090001") :
    processResult r = .error (.generic ("Query failed: " ++ pyShowOpt r.message)) := by
  unfold processResult
  rw [if_pos h]

theorem executeSqlTry_httpError {env : Env} {sql : String} {params : List (String × PyValue)}
    {pi tmo : Int} {fuel : Nat} {s1 : ExecState} {est : Nat} {r : SfResponse}
    (hex : env.respond s1.trace.length (.postStatement sql (requestBindings params))
      = .resp est r)
    (he2 : 400 ≤ est) :
    executeSqlTry env sql params pi tmo fuel s1
      = some (.error (.generic ("Snowflake API error: " ++ toString est ++ " - " ++ r.text)),
        { trace := s1.trace ++ [(SfRequest.postStatement sql (requestBindings params), s1.clock)]
          clock := s1.clock + env.duration s1.trace.length
            (SfRequest.postStatement sql (requestBindings params)) }) := by
  unfold executeSqlTry doRequest
  simp only [hex]
  rw [if_pos he2]
  rfl

/-- C8: each execution-layer failure reaches the caller as an error with a
human-readable message, and the four kinds (ValidationFailed,
RemoteQueryFailed, TimedOut, TransportError) stay distinguishable at the
caller: a fixed classifier on the message text recovers the kind in each
scenario. -/
theorem C8_failures_surfaced_distinguishable :
    (∀ (env : Env) (sql : String) (params : List (String × PyValue))
        (pi tmo : Int) (fuel : Nat) (vst : Nat) (vbody : SfResponse) (vm : String),
      env.respond 0 (.postStatement ("EXPLAIN " ++ sql) (requestBindings params))
        = .resp vst vbody →
      vst < 400 → vbody.code ≠ some "090001" → vbody.message = some vm →
      ∃ s', executeSql env sql params pi tmo fuel initState
          = some (.error (.generic ("SQL validation error: " ++ vm)), s')
        ∧ errorKind ("SQL validation error: " ++ vm) = "ValidationFailed")
  ∧ (∀ (env : Env) (sql : String) (params : List (String × PyValue))
        (pi tmo : Int) (fuel : Nat) (vst est : Nat) (vbody r : SfResponse) (c fm : String),
      env.respond 0 (.postStatement ("EXPLAIN " ++ sql) (requestBindings params))
        = .resp vst vbody →
      vst < 400 → vbody.code = some "090001" →
      env.respond 1 (.postStatement sql (requestBindings params)) = .resp est r →
      est < 400 → est ≠ 202 → r.code = some c → c ≠ "090001" → c ≠ "333333" →
      r.message = some fm → optTruthy r.nextPageToken = false →
      ∃ s', executeSql env sql params pi tmo fuel initState
          = some (.error (.generic ("Query execution error: " ++ ("Query failed: " ++ fm))), s')
        ∧ errorKind ("Query execution error: " ++ ("Query failed: " ++ fm))
            = "RemoteQueryFailed")
  ∧ (∀ (env : Env) (sql : String) (params : List (String × PyValue))
        (pi tmo : Int) (fuel : Nat) (h : String) (vst est : Nat) (vbody r : SfResponse),
      0 < pi → 0 ≤ tmo →
      env.respond 0 (.postStatement ("EXPLAIN " ++ sql) (requestBindings params))
        = .resp vst vbody →
      vst < 400 → vbody.code = some "090001" →
      env.respond 1 (.postStatement sql (requestBindings params)) = .resp est r →
      est < 400 → (est = 202 ∨ r.code = some "333333") → r.statementHandle = some h →
      (∀ i, ∃ st rr, env.respond i (.getStatus h) = .resp st rr ∧ st < 400
        ∧ nonTerminalStatus rr) →
      (∀ i, env.duration i (.getStatus h) = 0) →
      tmo.toNat / pi.toNat + 1 ≤ fuel →
      ∃ s', executeSql env sql params pi tmo fuel initState
          = some (.error (.generic timeoutMsgFull), s')
        ∧ errorKind timeoutMsgFull = "TimedOut")
  ∧ (∀ (env : Env) (sql : String) (params : List (String × PyValue))
        (pi tmo : Int) (fuel : Nat) (vst est : Nat) (vbody r : SfResponse),
      env.respond 0 (.postStatement ("EXPLAIN " ++ sql) (requestBindings params))
        = .resp vst vbody →
      vst < 400 → vbody.code = some "090001" →
      env.respond 1 (.postStatement sql (requestBindings params)) = .resp est r →
      400 ≤ est →
      ∃ s', executeSql env sql params pi tmo fuel initState
          = some (.error (.generic ("Snowflake API error: " ++ toString est ++ " - " ++ r.text)), s')
        ∧ errorKind ("Snowflake API error: " ++ toString est ++ " - " ++ r.text)
            = "TransportError") := by
  refine ⟨?_, ?_, ?_, ?_⟩
  · intro env sql params pi tmo fuel vst vbody vm hval hv2 hv3 hmsg
    unfold executeSql
    rw [validateSql_badCode (show env.respond initState.trace.length _ = _ from hval)
      hv2 hv3]
    rw [hmsg]
    exact ⟨_, rfl, errorKind_validation vm⟩
  · intro env sql params pi tmo fuel vst est vbody r c fm hval hv2 hv3 hex he2 he3 hc hc1
      hc2 hmsg hnt
    rw [executeSql_validate_ok pi tmo fuel (show env.respond initState.trace.length _ = _ from hval)
      hv2 hv3]
    rw [executeSqlTry_sync (show env.respond 1 _ = _ from hex) he2 he3
      (by rw [hc]; intro hcon; injection hcon with hcon'; exact hc2 hcon')
      (by rw [hnt, Bool.and_false])]
    rw [processResult_fail (by rw [hc]; intro hcon; injection hcon with hcon'; exact hc1 hcon')]
    rw [hmsg]
    exact ⟨_, rfl, errorKind_remote fm⟩
  · intro env sql params pi tmo fuel h vst est vbody r hpi hto hval hv2 hv3 hex he2 he3 hh0
      hpolls hpolldur hfuel
    rw [executeSql_validate_ok pi tmo fuel (show env.respond initState.trace.length _ = _ from hval)
      hv2 hv3]
    obtain ⟨s', hpoll, htr⟩ := pollLoop_never_terminal env h pi tmo
      (initState.clock + env.duration initState.trace.length
          (SfRequest.postStatement ("EXPLAIN " ++ sql) (requestBindings params))
        + env.duration 1 (SfRequest.postStatement sql (requestBindings params)))
      (tmo.toNat / pi.toNat + 1) (timeout_iterations pi tmo hpi hto) hpolls hpolldur
      fuel 0
      { trace := (initState.trace ++ [(SfRequest.postStatement ("EXPLAIN " ++ sql)
            (requestBindings params), initState.clock)])
          ++ [(SfRequest.postStatement sql (requestBindings params),
            initState.clock + env.duration initState.trace.length
              (SfRequest.postStatement ("EXPLAIN " ++ sql) (requestBindings params)))]
        clock := initState.clock + env.duration initState.trace.length
            (SfRequest.postStatement ("EXPLAIN " ++ sql) (requestBindings params))
          + env.duration 1 (SfRequest.postStatement sql (requestBindings params)) }
      (by push_cast; ring) (by omega)
    rw [executeSqlTry_pollError (show env.respond 1 _ = _ from hex) he2 he3
      (by rw [hh0]; exact hpoll)]
    exact ⟨s', rfl, errorKind_timeout⟩
  · intro env sql params pi tmo fuel vst est vbody r hval hv2 hv3 hex he2
    rw [executeSql_validate_ok pi tmo fuel (show env.respond initState.trace.length _ = _ from hval)
      hv2 hv3]
    rw [executeSqlTry_httpError (show env.respond 1 _ = _ from hex) he2]
    exact ⟨_, rfl, errorKind_api (toString est ++ (" - " ++ r.text))⟩

/-- Witness for C8: all four failure kinds at concrete environments. -/
theorem C8_witness :
    (∃ s', executeSql envC8V "SELECT 1" [] 1 60 5 initState
        = some (.error (.generic ("SQL validation error: " ++ "explain rejected")), s')
      ∧ errorKind ("SQL validation error: " ++ "explain rejected") = "ValidationFailed")
  ∧ (∃ s', executeSql envC8R "SELECT 1" [] 1 60 5 initState
        = some (.error (.generic
            ("Query execution error: " ++ ("Query failed: " ++ "compilation error"))), s')
      ∧ errorKind ("Query execution error: " ++ ("Query failed: " ++ "compilation error"))
          = "RemoteQueryFailed")
  ∧ (∃ s', executeSql envC8T "SELECT 1" [] 1 0 3 initState
        = some (.error (.generic timeoutMsgFull), s')
      ∧ errorKind timeoutMsgFull = "TimedOut")
  ∧ (∃ s', executeSql envC8X "SELECT 1" [] 1 60 5 initState
        = some (.error (.generic
            ("Snowflake API error: " ++ toString 503 ++ " - " ++ "service unavailable")), s')
      ∧ errorKind ("Snowflake API error: " ++ toString 503 ++ " - " ++ "service unavailable")
          = "TransportError") :=
  ⟨C8_failures_surfaced_distinguishable.1 envC8V "SELECT 1" [] 1 60 5 200
      { code := some "000321", message := some "explain rejected" } "explain rejected"
      (by decide) (by decide) (by decide) (by decide),
   C8_failures_surfaced_distinguishable.2.1 envC8R "SELECT 1" [] 1 60 5 200 200 okExplainResp
      { code := some "002043", message := some "compilation error" } "002043" "compilation error"
      (by decide) (by decide) (by decide) (by decide) (by decide) (by decide) (by decide)
      (by decide) (by decide) (by decide) (by decide),
   C8_failures_surfaced_distinguishable.2.2.1 envC8T "SELECT 1" [] 1 0 3 "h9" 200 202
      okExplainResp { code := some "333333", statementHandle := some "h9" }
      (by decide) (by decide) (by decide) (by decide) (by decide) (by decide) (by decide)
      (by decide) (by decide)
      (by intro i; exact ⟨200, runningResp, rfl, by omega, by unfold nonTerminalStatus; decide⟩)
      (by intro i; rfl) (by decide),
   C8_failures_surfaced_distinguishable.2.2.2 envC8X "SELECT 1" [] 1 60 5 200 503
      okExplainResp { text := "service unavailable" }
      (by decide) (by decide) (by decide) (by decide) (by decide)⟩


theorem pagesJoin_eq (pages : Nat → SfResponse) :
    ∀ k j, pagesJoin pages j k = ((List.range k).map (fun i => (pages (j + i)).data)).join := by
  intro k
  induction k with
  | zero => intro j; simp [pagesJoin]
  | succ m ih =>
    intro j
    rw [pagesJoin, ih (j + 1), List.range_succ_eq_map]
    simp only [List.map_cons, List.map_map, List.join_cons, Nat.add_zero]
    have hfun : ((fun i => (pages (j + i)).data) ∘ Nat.succ)
        = (fun i => (pages (j + 1 + i)).data) := by
      funext i
      simp only [Function.comp_apply]
      congr 2
      omega
    rw [hfun]

theorem pageReqs_eq (h : String) (tok : Nat → String) :
    ∀ k j, pageReqs h tok j k = (List.range k).map (fun i => SfRequest.getPage h (tok (j + i))) := by
  intro k
  induction k with
  | zero => intro j; simp [pageReqs]
  | succ m ih =>
    intro j
    rw [pageReqs, ih (j + 1), List.range_succ_eq_map]
    simp only [List.map_cons, List.map_map, Nat.add_zero]
    have hfun : ((fun i => SfRequest.getPage h (tok (j + i))) ∘ Nat.succ)
        = (fun i => SfRequest.getPage h (tok (j + 1 + i))) := by
      funext i
      simp only [Function.comp_apply]
      congr 2
      omega
    rw [hfun]

theorem fetchLoop_chain (env : Env) (h : String) (hh : h ≠ "")
    (tok : Nat → String) (pages : Nat → SfResponse) (n : Nat)
    (htok : ∀ i, i < n → tok i ≠ "")
    (hresp : ∀ idx i, i < n → env.respond idx (.getPage h (tok i)) = .resp 200 (pages i))
    (hchain : ∀ i, i + 1 < n → (pages i).nextPageToken = some (tok (i + 1)))
    (hlast : 0 < n → (pages (n - 1)).nextPageToken = none) :
    ∀ (fuel j : Nat) (acc : List SfRow) (s : ExecState), j ≤ n → n - j ≤ fuel →
    ∃ s', fetchLoop env (some h) fuel acc (if j < n then some (tok j) else none) s
        = some (.ok (acc ++ pagesJoin pages j (n - j)), s')
      ∧ s'.trace.map Prod.fst = s.trace.map Prod.fst ++ pageReqs h tok j (n - j) := by
  intro fuel
  induction fuel with
  | zero =>
    intro j acc s hj hf
    rw [if_neg (show ¬ j < n by omega)]
    rw [fetchLoop_stop env (some h) 0 acc none s (by simp [optTruthy])]
    rw [show n - j = 0 from by omega]
    exact ⟨s, by simp [pagesJoin], by simp [pageReqs]⟩
  | succ f ih =>
    intro j acc s hj hf
    by_cases hjn : j < n
    · rw [if_pos hjn]
      unfold fetchLoop
      rw [if_pos (show (optTruthy (some h) && optTruthy (some (tok j))) = true from by
        simp [optTruthy, hh, htok j hjn])]
      simp only [doRequest, Option.getD_some, hresp s.trace.length j hjn]
      rw [if_neg (by omega : ¬ (400 ≤ 200))]
      have htokj : (pages j).nextPageToken
          = (if j + 1 < n then some (tok (j + 1)) else none) := by
        by_cases hj1 : j + 1 < n
        · rw [if_pos hj1]; exact hchain j hj1
        · rw [if_neg hj1]
          have hje : j = n - 1 := by omega
          rw [hje]
          exact hlast (by omega)
      rw [htokj]
      obtain ⟨s', heq, htr⟩ := ih (j + 1) (acc ++ (pages j).data)
        { trace := s.trace ++ [(SfRequest.getPage h (tok j), s.clock)]
          clock := s.clock + env.duration s.trace.length (SfRequest.getPage h (tok j)) }
        (by omega) (by omega)
      refine ⟨s', ?_, ?_⟩
      · rw [heq]
        rw [show n - j = (n - (j + 1)) + 1 from by omega]
        rw [pagesJoin, List.append_assoc]
      · rw [htr]
        rw [show n - j = (n - (j + 1)) + 1 from by omega]
        rw [pageReqs]
        simp [List.append_assoc]
    · rw [if_neg hjn]
      rw [fetchLoop_stop env (some h) (f + 1) acc none s (by simp [optTruthy])]
      rw [show n - j = 0 from by omega]
      exact ⟨s, by simp [pagesJoin], by simp [pageReqs]⟩

theorem executeSqlTry_syncFetch {env : Env} {sql : String} {params : List (String × PyValue)}
    {pi tmo : Int} {fuel : Nat} {s1 : ExecState} {est : Nat} {r res : SfResponse}
    {sf : ExecState}
    (hex : env.respond s1.trace.length (.postStatement sql (requestBindings params))
      = .resp est r)
    (he2 : est < 400) (he3 : est ≠ 202) (he4 : r.code ≠ some "333333")
    (hfetch : fetchAllPages env r r.statementHandle fuel
      { trace := s1.trace ++ [(SfRequest.postStatement sql (requestBindings params), s1.clock)]
        clock := s1.clock + env.duration s1.trace.length
          (SfRequest.postStatement sql (requestBindings params)) } = some (.ok res, sf)) :
    executeSqlTry env sql params pi tmo fuel s1 =
      (match processResult res with
       | .error e => some (.error (execExceptArm e), sf)
       | .ok outcome => some (.ok outcome, sf)) := by
  unfold executeSqlTry doRequest
  simp only [hex]
  rw [if_neg (by omega : ¬ (400 ≤ est))]
  rw [if_neg (show ¬ (est = 202 ∨ r.code = some "333333") by
    rintro (h | h)
    · exact he3 h
    · exact he4 h)]
  simp only [hfetch]

/-- C3: for every multi-page result (continuation tokens present on every
page but the last), the accumulated row sequence handed to the decoder is
the concatenation of every page's rows in token order, the column list of
the outcome is taken from the first page's metadata, and pagination stops
exactly when no continuation token is present: one page GET per token. -/
theorem C3_pagination_concatenates_in_order
    (env : Env) (sql : String) (params : List (String × PyValue))
    (pi tmo : Int) (fuel n : Nat) (h : String) (tok : Nat → String)
    (pages : Nat → SfResponse) (vst est : Nat) (vbody r : SfResponse)
    (hval : env.respond 0 (.postStatement ("EXPLAIN " ++ sql) (requestBindings params))
      = .resp vst vbody)
    (hv2 : vst < 400) (hv3 : vbody.code = some "090001")
    (hex : env.respond 1 (.postStatement sql (requestBindings params)) = .resp est r)
    (he2 : est < 400) (he3 : est ≠ 202) (he4 : r.code = some "090001")
    (hh0 : r.statementHandle = some h) (hh1 : h ≠ "")
    (ht0 : r.nextPageToken = some (tok 0)) (hn : 0 < n)
    (htok : ∀ i, i < n → tok i ≠ "")
    (hpages : ∀ idx i, i < n → env.respond idx (.getPage h (tok i)) = .resp 200 (pages i))
    (hchain : ∀ i, i + 1 < n → (pages i).nextPageToken = some (tok (i + 1)))
    (hlast : (pages (n - 1)).nextPageToken = none)
    (hfuel : n ≤ fuel) :
    ∃ s', executeSql env sql params pi tmo fuel initState = some (.ok
        { success := true
          data := r.data ++ ((List.range n).map (fun i => (pages i).data)).join
          columns := ((r.resultSetMetaData.getD {}).rowType.getD []).map ColInfo.name
          row_count := (r.resultSetMetaData.getD {}).numRows.getD 0
          query_id := some h }, s')
      ∧ s'.trace.map Prod.fst = [.postStatement ("EXPLAIN " ++ sql) (requestBindings params),
            .postStatement sql (requestBindings params)]
          ++ (List.range n).map (fun i => SfRequest.getPage h (tok i)) := by
  rw [executeSql_validate_ok pi tmo fuel (show env.respond initState.trace.length _ = _ from hval)
    hv2 hv3]
  obtain ⟨s', heq, htr⟩ := fetchLoop_chain env h hh1 tok pages n htok hpages hchain
    (fun _ => hlast) fuel 0 r.data
    { trace := (initState.trace ++ [(SfRequest.postStatement ("EXPLAIN " ++ sql)
          (requestBindings params), initState.clock)])
        ++ [(SfRequest.postStatement sql (requestBindings params),
          initState.clock + env.duration initState.trace.length
            (SfRequest.postStatement ("EXPLAIN " ++ sql) (requestBindings params)))]
      clock := initState.clock + env.duration initState.trace.length
          (SfRequest.postStatement ("EXPLAIN " ++ sql) (requestBindings params))
        + env.duration 1 (SfRequest.postStatement sql (requestBindings params)) }
    (by omega) (by omega)
  have hfetch : fetchAllPages env r r.statementHandle fuel
      { trace := ((initState.trace ++ [(SfRequest.postStatement ("EXPLAIN " ++ sql)
            (requestBindings params), initState.clock)])
          ++ [(SfRequest.postStatement sql (requestBindings params),
            initState.clock + env.duration initState.trace.length
              (SfRequest.postStatement ("EXPLAIN " ++ sql) (requestBindings params)))])
        clock := initState.clock + env.duration initState.trace.length
            (SfRequest.postStatement ("EXPLAIN " ++ sql) (requestBindings params))
          + env.duration 1 (SfRequest.postStatement sql (requestBindings params)) }
      = some (.ok { r with data := r.data ++ pagesJoin pages 0 (n - 0) }, s') := by
    unfold fetchAllPages
    rw [hh0, ht0]
    rw [show (some (tok 0) : Option String) = (if 0 < n then some (tok 0) else none) from
      by rw [if_pos hn]]
    rw [heq]
  rw [executeSqlTry_syncFetch (show env.respond 1 _ = _ from hex) he2 he3
    (by rw [he4]; decide) hfetch]
  rw [processResult_ok (show ({ r with data := r.data ++ pagesJoin pages 0 (n - 0) }).code
    = some "090001" from he4)]
  refine ⟨s', ?_, ?_⟩
  · simp only [Nat.sub_zero, pagesJoin_eq pages n 0]
    simp only [Nat.zero_add, hh0]
  · rw [htr]
    simp only [Nat.sub_zero, pageReqs_eq h tok n 0, Nat.zero_add]
    simp [initState]

/-- Witness for C3 at a concrete three-page result. -/
theorem C3_witness :
    ∃ s', executeSql envC3W "SELECT 1" [] 1 60 5 initState = some (.ok
        { success := true
          data := pageFirstResp.data
            ++ ((List.range 2).map (fun i => (pagesC3W i).data)).join
          columns := ((pageFirstResp.resultSetMetaData.getD {}).rowType.getD []).map ColInfo.name
          row_count := (pageFirstResp.resultSetMetaData.getD {}).numRows.getD 0
          query_id := some "h" }, s')
      ∧ s'.trace.map Prod.fst = [.postStatement ("EXPLAIN " ++ "SELECT 1") (requestBindings []),
            .postStatement "SELECT 1" (requestBindings [])]
          ++ (List.range 2).map (fun i => SfRequest.getPage "h" (tokC3W i)) :=
  C3_pagination_concatenates_in_order envC3W "SELECT 1" [] 1 60 5 2 "h" tokC3W pagesC3W
    200 200 okExplainResp pageFirstResp
    (by decide) (by decide) (by decide) (by decide) (by decide) (by decide) (by decide)
    (by decide) (by decide) (by decide) (by decide)
    (by intro i hi
        rcases i with _ | _ | i
        · decide
        · decide
        · omega)
    (by intro idx i hi
        rcases i with _ | _ | i
        · rfl
        · rfl
        · omega)
    (by intro i hi
        rcases i with _ | i
        · decide
        · omega)
    (by decide) (by decide)
